import Mathlib

/-!
Shallow embedding of the realtime telemetry client of the machine-tool
monitoring dashboard (`WebSocketManager` and the rolling-buffer part of
`ChartManager`, both in `src/unnamed/part_000`).

Conventions of the embedding:
* JS numbers that stay on exact binary fractions (the reconnect delays:
  5000 * 1.5^k capped at 30000) are modelled as rationals, which is exact
  for every reachable value.
* The browser event loop is made explicit: `setTimeout(() => this.connect(), d)`
  becomes a pending-timer counter plus a log of the scheduled delays, and
  `fireReconnect` models one pending timer elapsing.
* External side effects (console logging, DOM updates, `window.app` calls,
  the alarm sound) are not observable by any claim and are omitted; the
  displayed connection indicator set by `updateConnectionStatus` is kept as
  the `status` field.
* Listener callbacks are identified by numeric ids; running a callback is an
  arbitrary function into `Except String Unit` (a thrown exception is
  `Except.error`), and the trace of invocations is recorded in `handlerLog`.
* Frames sent on the wire (`this.ws.send`) are recorded in `wireSent`;
  channels passed to `this.emit` are recorded in `emittedEvents`.
-/

set_option maxRecDepth 20000

namespace MonitorClient

/-- Connection indicator values passed to `updateConnectionStatus`. -/
inductive ConnStatus where
  | connecting
  | connected
  | disconnected
deriving DecidableEq

/-- Client-to-server frames produced by the manager: `subscribe`,
`unsubscribe` (each carrying a machine id) and the heartbeat reply `pong`
(whose timestamp payload is environment input and not modelled). -/
inductive OutMsg where
  | subscribeMsg (machineId : String)
  | unsubscribeMsg (machineId : String)
  | pongMsg
deriving DecidableEq

/-- An inbound message after `JSON.parse`. `handleMessage` inspects only the
`type` tag; the rest of the payload is handed to listeners unexamined, so it
is not represented. -/
structure Msg where
  type : String
deriving DecidableEq

/-- Running one listener callback: `Except.error` models the callback
throwing. The dispatch logic never looks at the result (every call is wrapped
in `try`/`catch`), which the theorems below make precise. -/
abbrev RunFn : Type := String → Nat → Except String Unit

/-- A run function under which no listener throws; used for concrete
scenarios. -/
def pureRun : RunFn := fun _ _ => Except.ok ()

/-- State of one `WebSocketManager` instance, together with the observation
traces described in the module header. `ws` holds the id of the socket the
manager currently points at (`this.ws`); `liveSockets` lists every socket that
was created and never closed. The constructor initializes `ws = null`,
`isConnected = false`, `reconnectAttempts = 0`, `maxReconnectAttempts = 5`,
`reconnectInterval = 5000`, empty handler map and empty subscription set. -/
structure WS where
  ws : Option Nat
  isConnected : Bool
  reconnectAttempts : Nat
  maxReconnectAttempts : Nat
  reconnectInterval : ℚ
  messageHandlers : List (String × List Nat)
  subscriptions : List String
  liveSockets : List Nat
  nextSocketId : Nat
  pendingReconnects : Nat
  scheduledDelays : List ℚ
  wireSent : List OutMsg
  emittedEvents : List String
  handlerLog : List (String × Nat)
  status : ConnStatus

/-- The state built by the `WebSocketManager` constructor. -/
def initWS : WS :=
  { ws := none
    isConnected := false
    reconnectAttempts := 0
    maxReconnectAttempts := 5
    reconnectInterval := 5000
    messageHandlers := []
    subscriptions := []
    liveSockets := []
    nextSocketId := 0
    pendingReconnects := 0
    scheduledDelays := []
    wireSent := []
    emittedEvents := []
    handlerLog := []
    status := ConnStatus.disconnected }

/-- Lookup of `this.messageHandlers.get(eventType)`, defaulting to no
handlers when the key is absent. -/
def handlersFor (hs : List (String × List Nat)) (t : String) : List Nat :=
  match hs with
  | [] => []
  | (k, l) :: rest => if k = t then l else handlersFor rest t

/-- Map update performed by `on(eventType, handler)`: create the entry if
missing, otherwise push the handler at the end of the existing array. -/
def addHandler (hs : List (String × List Nat)) (t : String) (h : Nat) :
    List (String × List Nat) :=
  match hs with
  | [] => [(t, [h])]
  | (k, l) :: rest =>
      if k = t then (k, l ++ [h]) :: rest else (k, l) :: addHandler rest t h

/-- Method `on(eventType, handler)` of `WebSocketManager` (the source name
`on` is reserved in Lean). -/
def onEvent (s : WS) (t : String) (h : Nat) : WS :=
  { s with messageHandlers := addHandler s.messageHandlers t h }

/-- The `handlers.forEach` loop inside `emit`: every callback is invoked in
registration order, each call wrapped in `try`/`catch` (so a throwing callback
is logged and the loop continues, which is why both match arms record the
invocation and recurse). Returns the invocation trace. -/
def runHandlers (run : RunFn) (t : String) : List Nat → List (String × Nat)
  | [] => []
  | h :: hs =>
      match run t h with
      | Except.ok _ => (t, h) :: runHandlers run t hs
      | Except.error _ => (t, h) :: runHandlers run t hs

/-- Method `emit(eventType, data)`: run every handler registered under the
channel. The channel name is logged in `emittedEvents`, the invocations in
`handlerLog`. -/
def emit (run : RunFn) (s : WS) (t : String) : WS :=
  { s with
      emittedEvents := s.emittedEvents ++ [t]
      handlerLog := s.handlerLog ++ runHandlers run t (handlersFor s.messageHandlers t) }

/-- Method `send(message)`: transmit only when `this.isConnected && this.ws`,
returning `true` on success and `false` otherwise (never throwing to the
caller). -/
def send (s : WS) (m : OutMsg) : WS × Bool :=
  if s.isConnected && s.ws.isSome then
    ({ s with wireSent := s.wireSent ++ [m] }, true)
  else (s, false)

/-- Insertion into the JS `Set` `this.subscriptions` (insertion-ordered,
duplicate adds are no-ops). -/
def setAdd (l : List String) (x : String) : List String :=
  if x ∈ l then l else l ++ [x]

/-- Method `subscribe(machineId)`: build the subscribe frame, and only if
`send` reports success add the machine id to the subscription set. -/
def subscribe (s : WS) (machineId : String) : WS × Bool :=
  let r := send s (OutMsg.subscribeMsg machineId)
  if r.2 then
    ({ r.1 with subscriptions := setAdd r.1.subscriptions machineId }, true)
  else (r.1, false)

/-- Method `unsubscribe(machineId)`: build the unsubscribe frame, and only if
`send` reports success delete the machine id from the subscription set. -/
def unsubscribe (s : WS) (machineId : String) : WS × Bool :=
  let r := send s (OutMsg.unsubscribeMsg machineId)
  if r.2 then
    ({ r.1 with subscriptions := r.1.subscriptions.erase machineId }, true)
  else (r.1, false)

/-- Method `resubscribe()`: call `subscribe` for every machine id currently in
the subscription set, in iteration order. (The loop body can only re-add
elements already present, so iterating over a snapshot of the set is
faithful.) -/
def resubscribe (s : WS) : WS :=
  s.subscriptions.foldl (fun st machineId => (subscribe st machineId).1) s

/-- Method `connect()` on its non-throwing path: show the `connecting`
indicator and point `this.ws` at a freshly constructed socket. There is no
state guard, and a previously held socket is abandoned without being
closed, so it stays in `liveSockets`. -/
def connect (s : WS) : WS :=
  { s with
      status := ConnStatus.connecting
      ws := some s.nextSocketId
      liveSockets := s.liveSockets ++ [s.nextSocketId]
      nextSocketId := s.nextSocketId + 1 }

/-- Method `disconnect()`: close the current socket if any (removing it from
the live set), null the reference, clear `isConnected` and show the
`disconnected` indicator. Nothing touches the pending reconnect timers. -/
def disconnect (s : WS) : WS :=
  let s1 :=
    match s.ws with
    | some sockId => { s with liveSockets := s.liveSockets.erase sockId, ws := none }
    | none => s
  { s1 with isConnected := false, status := ConnStatus.disconnected }

/-- The `Math.min` of the source, on exact rationals. -/
def ratMin (a b : ℚ) : ℚ := if a ≤ b then a else b

/-- Method `scheduleReconnect()`: below the attempt cap, increment the
counter, start a `setTimeout(() => this.connect(), this.reconnectInterval)`
(one more pending timer, its delay logged), then grow the interval to
`min(interval * 1.5, 30000)`. At the cap, emit `max_reconnect_attempts_reached`
instead. -/
def scheduleReconnect (run : RunFn) (s : WS) : WS :=
  if s.reconnectAttempts < s.maxReconnectAttempts then
    { s with
        reconnectAttempts := s.reconnectAttempts + 1
        pendingReconnects := s.pendingReconnects + 1
        scheduledDelays := s.scheduledDelays ++ [s.reconnectInterval]
        reconnectInterval := ratMin (s.reconnectInterval * (3 / 2)) 30000 }
  else emit run s "max_reconnect_attempts_reached"

/-- One pending reconnect timer elapsing on the event loop: its callback is
`() => this.connect()`, unconditionally. -/
def fireReconnect (s : WS) : WS :=
  match s.pendingReconnects with
  | 0 => s
  | n + 1 => connect { s with pendingReconnects := n }

/-- Handler `onOpen(event)`: mark connected, reset the attempt counter (the
interval is left alone), show the indicator, resubscribe every topic, then
emit `connected`. -/
def onOpen (run : RunFn) (s : WS) : WS :=
  let s1 := { s with
                isConnected := true
                reconnectAttempts := 0
                status := ConnStatus.connected }
  emit run (resubscribe s1) "connected"

/-- Handler `onClose(event)`: mark disconnected, emit `disconnected`, and
schedule a reconnect unless the close code is the normal closure 1000. -/
def onClose (run : RunFn) (s : WS) (code : Nat) : WS :=
  let s1 := { s with isConnected := false, status := ConnStatus.disconnected }
  let s2 := emit run s1 "disconnected"
  if code ≠ 1000 then scheduleReconnect run s2 else s2

/-- Handler `onError(event)`: only emits `error`. -/
def onError (run : RunFn) (s : WS) : WS :=
  emit run s "error"

/-- The `switch (messageType)` of `handleMessage`, i.e. the per-type handler
that runs before the generic fan-out: ten known types each re-emit their own
channel (their other effects are external display calls), `ping` replies with
a `pong` frame through `send` (discarding its Boolean result), `error` emits
`server_error`, and unknown types are only logged. -/
def handleTyped (run : RunFn) (s : WS) (t : String) : WS :=
  if t = "welcome" then emit run s "welcome"
  else if t = "machine_data" then emit run s "machine_data"
  else if t = "alarm" then emit run s "alarm"
  else if t = "status_change" then emit run s "status_change"
  else if t = "control_response" then emit run s "control_response"
  else if t = "system_notification" then emit run s "system_notification"
  else if t = "maintenance_alert" then emit run s "maintenance_alert"
  else if t = "performance_report" then emit run s "performance_report"
  else if t = "subscription_confirmed" then emit run s "subscription_confirmed"
  else if t = "unsubscription_confirmed" then emit run s "unsubscription_confirmed"
  else if t = "ping" then (send s OutMsg.pongMsg).1
  else if t = "error" then emit run s "server_error"
  else s

/-- Method `handleMessage(message)`: the type switch, then the wildcard
`emit("message", message)`, then `emit(message.type, message)`. -/
def handleMessage (run : RunFn) (s : WS) (m : Msg) : WS :=
  let s1 := handleTyped run s m.type
  let s2 := emit run s1 "message"
  emit run s2 m.type

/-- Body of `onMessage(event)` before its `try`/`catch`: `JSON.parse` (an
arbitrary parser that may throw, passed as `parse`) followed by
`handleMessage`. -/
def onMessageBody (parse : String → Except String Msg) (run : RunFn) (s : WS)
    (raw : String) : Except String WS :=
  match parse raw with
  | Except.ok m => Except.ok (handleMessage run s m)
  | Except.error e => Except.error e

/-- Handler `onMessage(event)`: the body above wrapped in `try`/`catch`; a
parse failure is logged and the frame dropped, leaving the state untouched. -/
def onMessage (parse : String → Except String Msg) (run : RunFn) (s : WS)
    (raw : String) : WS :=
  match onMessageBody parse run s raw with
  | Except.ok s1 => s1
  | Except.error _ => s

/-- A parser that rejects every frame, standing in for `JSON.parse` on
malformed input. -/
def parseFail : String → Except String Msg :=
  fun _ => Except.error "SyntaxError"

/-- The heartbeat frame. -/
def pingMsg : Msg := Msg.mk "ping"

/-- The channels on which the type switch emits before the generic fan-out,
as a function of the message type (mirrors `handleTyped`). -/
def preChannels (t : String) : List String :=
  if t = "welcome" then ["welcome"]
  else if t = "machine_data" then ["machine_data"]
  else if t = "alarm" then ["alarm"]
  else if t = "status_change" then ["status_change"]
  else if t = "control_response" then ["control_response"]
  else if t = "system_notification" then ["system_notification"]
  else if t = "maintenance_alert" then ["maintenance_alert"]
  else if t = "performance_report" then ["performance_report"]
  else if t = "subscription_confirmed" then ["subscription_confirmed"]
  else if t = "unsubscription_confirmed" then ["unsubscription_confirmed"]
  else if t = "ping" then []
  else if t = "error" then ["server_error"]
  else []

/-- The full channel sequence a dispatch of a message of type `t` emits on:
the type-switch channels, then the wildcard channel, then the type itself. -/
def dispatchChannels (t : String) : List String :=
  preChannels t ++ ["message", t]

/-- Invocation trace produced by emitting on a sequence of channels against a
fixed handler registry. -/
def channelLog (hs : List (String × List Nat)) : List String → List (String × Nat)
  | [] => []
  | c :: cs => (handlersFor hs c).map (fun i => (c, i)) ++ channelLog hs cs

/-- Rolling-buffer step of `ChartManager.updateRealtimeChart` (applied to the
time axis and to each data series): when the buffer has reached
`maxDataPoints` elements, `shift()` the oldest out, then `push(v)` at the
end. -/
def shiftPush {α : Type} (maxDataPoints : Nat) (data : List α) (v : α) : List α :=
  (if maxDataPoints ≤ data.length then data.tail else data) ++ [v]

/-- Appending a whole sequence of samples to one series buffer, oldest
first. -/
def appendSamples {α : Type} (maxDataPoints : Nat) (data : List α) (vs : List α) :
    List α :=
  vs.foldl (shiftPush maxDataPoints) data

/-- One realtime sample as read by `updateRealtimeChart` (a missing field is
already defaulted to 0 by the `|| 0` in the source). -/
structure MachineData where
  temperature : ℚ
  vibration : ℚ
  current : ℚ
  speed : ℚ
  pressure : ℚ

/-- The mutable parts of the realtime chart option: the time axis and the
five data series created by `initRealtimeChart`, each starting empty. -/
structure RealtimeOption where
  xAxisData : List String
  temperatureSeries : List ℚ
  vibrationSeries : List ℚ
  currentSeries : List ℚ
  speedSeries : List ℚ
  pressureSeries : List ℚ

/-- Method `updateRealtimeChart(machineId, data)` with `maxDataPoints` the
capacity from the `ChartManager` constructor (50): the time axis and every
series advance by one `shiftPush` step. -/
def updateRealtimeChart (maxDataPoints : Nat) (opt : RealtimeOption)
    (timeStr : String) (d : MachineData) : RealtimeOption :=
  { xAxisData := shiftPush maxDataPoints opt.xAxisData timeStr
    temperatureSeries := shiftPush maxDataPoints opt.temperatureSeries d.temperature
    vibrationSeries := shiftPush maxDataPoints opt.vibrationSeries d.vibration
    currentSeries := shiftPush maxDataPoints opt.currentSeries d.current
    speedSeries := shiftPush maxDataPoints opt.speedSeries d.speed
    pressureSeries := shiftPush maxDataPoints opt.pressureSeries d.pressure }

/-! Concrete scenario states used by counterexamples and witnesses. -/

/-- A client that connected and saw the socket open. -/
def sConn : WS := onOpen pureRun (connect initWS)

/-- The state after the first unexpected close (code 1006) of a fresh
connection: one reconnect timer pending. -/
def afterClose1 : WS := onClose pureRun (connect initWS) 1006

/-- One reconnect cycle: the pending timer fires, the new socket closes
unexpectedly again. -/
def closeStep (s : WS) : WS := onClose pureRun (fireReconnect s) 1006

/-- States after two to six consecutive unexpected closes. -/
def afterClose2 : WS := closeStep afterClose1

/-- State after the third unexpected close. -/
def afterClose3 : WS := closeStep afterClose2

/-- State after the fourth unexpected close. -/
def afterClose4 : WS := closeStep afterClose3

/-- State after the fifth unexpected close. -/
def afterClose5 : WS := closeStep afterClose4

/-- State after the sixth unexpected close. -/
def afterClose6 : WS := closeStep afterClose5

/-- Reopening after one failed cycle: the first timer fires and this time the
socket opens. -/
def afterReopen : WS := onOpen pureRun (fireReconnect afterClose1)

/-- Calling `disconnect()` while the first reconnect timer is still
pending. -/
def afterDisc : WS := disconnect afterClose1

/-- A connected client whose only listener is a wildcard listener 7 on
`message` plus a listener 9 on type `ping`. -/
def C1state : WS := onEvent (onEvent sConn "message" 7) "ping" 9

/-- A connected client with wildcard listener 1 and a listener 3 on type
`welcome`. -/
def C10state : WS := onEvent (onEvent sConn "message" 1) "welcome" 3

/-- A connected client holding one subscription `m1`. -/
def sSub : WS := (subscribe sConn "m1").1

/-- The same client after `disconnect()`: still holds `m1` in the set. -/
def sSubDisc : WS := disconnect sSub

/-- A connected client holding two subscriptions. -/
def sTwo : WS := (subscribe (subscribe sConn "machine-a").1 "machine-b").1

/-!
Supporting lemmas.
-/

/-- The `try`/`catch` around every handler call makes the invocation trace
independent of which handlers throw: every registered handler is reached. -/
theorem runHandlers_eq (run : RunFn) (t : String) (l : List Nat) :
    runHandlers run t l = l.map (fun i => (t, i)) := by
  induction l with
  | nil => rfl
  | cons h hs ih => cases hr : run t h <;> simp [runHandlers, hr, ih]

/-- Consequently `emit` itself does not depend on the run function. -/
theorem emit_eq (run runB : RunFn) (s : WS) (t : String) :
    emit run s t = emit runB s t := by
  simp [emit, runHandlers_eq]

/-- Invocation trace appended by one `emit`. -/
theorem emit_handlerLog (run : RunFn) (s : WS) (t : String) :
    (emit run s t).handlerLog
      = s.handlerLog ++ (handlersFor s.messageHandlers t).map (fun i => (t, i)) := by
  simp [emit, runHandlers_eq]

/-- An `emit` never modifies the handler registry. -/
theorem emit_messageHandlers (run : RunFn) (s : WS) (t : String) :
    (emit run s t).messageHandlers = s.messageHandlers := rfl

/-- The trace over a concatenation of channel sequences. -/
theorem channelLog_append (hs : List (String × List Nat)) (l1 l2 : List String) :
    channelLog hs (l1 ++ l2) = channelLog hs l1 ++ channelLog hs l2 := by
  induction l1 with
  | nil => rfl
  | cons c cs ih => simp [channelLog, ih]

/-- Behaviour of `send` in a connected state. -/
theorem send_connected (s : WS) (m : OutMsg)
    (hc : (s.isConnected && s.ws.isSome) = true) :
    send s m = ({ s with wireSent := s.wireSent ++ [m] }, true) := by
  simp [send, hc]

/-- Behaviour of `send` when not connected: report failure, change nothing. -/
theorem send_disconnected (s : WS) (m : OutMsg)
    (hc : (s.isConnected && s.ws.isSome) = false) :
    send s m = (s, false) := by
  simp [send, hc]

/-- Projections of `send` that never change, whatever the connection state. -/
theorem send_frame (s : WS) (m : OutMsg) :
    (send s m).1.handlerLog = s.handlerLog
    ∧ (send s m).1.messageHandlers = s.messageHandlers
    ∧ (send s m).1.emittedEvents = s.emittedEvents := by
  unfold send; split <;> exact ⟨rfl, rfl, rfl⟩

/-- Behaviour of `subscribe` in a connected state. -/
theorem subscribe_connected (s : WS) (machineId : String)
    (hc : (s.isConnected && s.ws.isSome) = true) :
    subscribe s machineId
      = ({ s with
            wireSent := s.wireSent ++ [OutMsg.subscribeMsg machineId]
            subscriptions := setAdd s.subscriptions machineId }, true) := by
  simp [subscribe, send_connected s _ hc]

/-- Behaviour of `subscribe` when not connected: nothing happens at all. -/
theorem subscribe_disconnected (s : WS) (machineId : String)
    (hc : (s.isConnected && s.ws.isSome) = false) :
    subscribe s machineId = (s, false) := by
  simp [subscribe, send_disconnected s _ hc]

/-- One `subscribe` call never touches the reconnect bookkeeping. -/
theorem subscribe_reconnect_fields (s : WS) (machineId : String) :
    (subscribe s machineId).1.reconnectAttempts = s.reconnectAttempts
    ∧ (subscribe s machineId).1.reconnectInterval = s.reconnectInterval := by
  cases hc : s.isConnected && s.ws.isSome with
  | false => rw [subscribe_disconnected s machineId hc]; exact ⟨rfl, rfl⟩
  | true => rw [subscribe_connected s machineId hc]; exact ⟨rfl, rfl⟩

/-- Neither does the whole resubscription loop (stated for any fold list). -/
theorem foldl_subscribe_reconnect_fields (l : List String) :
    ∀ s : WS,
      ((l.foldl (fun st machineId => (subscribe st machineId).1) s).reconnectAttempts
          = s.reconnectAttempts)
      ∧ ((l.foldl (fun st machineId => (subscribe st machineId).1) s).reconnectInterval
          = s.reconnectInterval) := by
  induction l with
  | nil => intro s; exact ⟨rfl, rfl⟩
  | cons a l ih =>
      intro s
      have h1 := subscribe_reconnect_fields s a
      have h2 := ih ((subscribe s a).1)
      exact ⟨h2.1.trans h1.1, h2.2.trans h1.2⟩

/-- The resubscription loop, run connected over machine ids that are already
registered, sends one subscribe frame per id and leaves the set unchanged. -/
theorem foldl_subscribe_resubscribes (l : List String) :
    ∀ s : WS, (s.isConnected && s.ws.isSome) = true →
      (∀ m ∈ l, m ∈ s.subscriptions) →
      ((l.foldl (fun st machineId => (subscribe st machineId).1) s).subscriptions
          = s.subscriptions)
      ∧ ((l.foldl (fun st machineId => (subscribe st machineId).1) s).wireSent
          = s.wireSent ++ l.map OutMsg.subscribeMsg) := by
  induction l with
  | nil => intro s _ _; exact ⟨rfl, by simp⟩
  | cons a l ih =>
      intro s hc hm
      have ha : a ∈ s.subscriptions := hm a (List.mem_cons_self a l)
      have hstep : subscribe s a
          = ({ s with wireSent := s.wireSent ++ [OutMsg.subscribeMsg a] }, true) := by
        rw [subscribe_connected s a hc]
        simp [setAdd, ha]
      have h2 := ih ({ s with wireSent := s.wireSent ++ [OutMsg.subscribeMsg a] })
        hc (fun m hmm => hm m (List.mem_cons_of_mem a hmm))
      simp only [List.foldl_cons, hstep]
      refine ⟨h2.1, ?_⟩
      rw [h2.2]; simp

/-- Projections of `disconnect` that never change: the reconnect timers and
counters survive it untouched. -/
theorem disconnect_frame (s : WS) :
    (disconnect s).pendingReconnects = s.pendingReconnects
    ∧ (disconnect s).nextSocketId = s.nextSocketId
    ∧ (disconnect s).scheduledDelays = s.scheduledDelays
    ∧ (disconnect s).reconnectAttempts = s.reconnectAttempts := by
  unfold disconnect
  cases s.ws <;> exact ⟨rfl, rfl, rfl, rfl⟩

/-- With a timer pending, its elapse decrements the pending count and runs
`connect`. -/
theorem fireReconnect_pos (s : WS) (hp : 0 < s.pendingReconnects) :
    fireReconnect s = connect { s with pendingReconnects := s.pendingReconnects - 1 } := by
  unfold fireReconnect
  cases hn : s.pendingReconnects with
  | zero => omega
  | succ n => simp

/-- Exhaustive shape analysis of the type switch: every message type either
selects a single pre-fan-out emit channel (the one listed by `preChannels`),
or is the heartbeat (whose only effect is the pong send), or falls through
to the logged-only default. -/
theorem handleTyped_cases (t : String) :
    (∃ c, preChannels t = [c] ∧ ∀ (run : RunFn) (s : WS), handleTyped run s t = emit run s c)
    ∨ (preChannels t = []
        ∧ ∀ (run : RunFn) (s : WS), handleTyped run s t = (send s OutMsg.pongMsg).1)
    ∨ (preChannels t = [] ∧ ∀ (run : RunFn) (s : WS), handleTyped run s t = s) := by
  by_cases h1 : t = "welcome"
  · subst h1; exact Or.inl ⟨"welcome", rfl, fun run s => rfl⟩
  by_cases h2 : t = "machine_data"
  · subst h2; exact Or.inl ⟨"machine_data", rfl, fun run s => rfl⟩
  by_cases h3 : t = "alarm"
  · subst h3; exact Or.inl ⟨"alarm", rfl, fun run s => rfl⟩
  by_cases h4 : t = "status_change"
  · subst h4; exact Or.inl ⟨"status_change", rfl, fun run s => rfl⟩
  by_cases h5 : t = "control_response"
  · subst h5; exact Or.inl ⟨"control_response", rfl, fun run s => rfl⟩
  by_cases h6 : t = "system_notification"
  · subst h6; exact Or.inl ⟨"system_notification", rfl, fun run s => rfl⟩
  by_cases h7 : t = "maintenance_alert"
  · subst h7; exact Or.inl ⟨"maintenance_alert", rfl, fun run s => rfl⟩
  by_cases h8 : t = "performance_report"
  · subst h8; exact Or.inl ⟨"performance_report", rfl, fun run s => rfl⟩
  by_cases h9 : t = "subscription_confirmed"
  · subst h9; exact Or.inl ⟨"subscription_confirmed", rfl, fun run s => rfl⟩
  by_cases h10 : t = "unsubscription_confirmed"
  · subst h10; exact Or.inl ⟨"unsubscription_confirmed", rfl, fun run s => rfl⟩
  by_cases h11 : t = "ping"
  · subst h11; exact Or.inr (Or.inl ⟨rfl, fun run s => rfl⟩)
  by_cases h12 : t = "error"
  · subst h12; exact Or.inl ⟨"server_error", rfl, fun run s => rfl⟩
  refine Or.inr (Or.inr ⟨?_, ?_⟩)
  · unfold preChannels
    rw [if_neg h1, if_neg h2, if_neg h3, if_neg h4, if_neg h5, if_neg h6,
      if_neg h7, if_neg h8, if_neg h9, if_neg h10, if_neg h11, if_neg h12]
  · intro run s
    unfold handleTyped
    rw [if_neg h1, if_neg h2, if_neg h3, if_neg h4, if_neg h5, if_neg h6,
      if_neg h7, if_neg h8, if_neg h9, if_neg h10, if_neg h11, if_neg h12]

/-- The type switch of `handleMessage` never modifies the handler
registry. -/
theorem handleTyped_messageHandlers (run : RunFn) (s : WS) (t : String) :
    (handleTyped run s t).messageHandlers = s.messageHandlers := by
  rcases handleTyped_cases t with ⟨c, _, hf⟩ | ⟨_, hf⟩ | ⟨_, hf⟩ <;>
    rw [hf run s] <;> simp [emit_messageHandlers, send_frame]

/-- The type switch of `handleMessage` is independent of which listeners
throw. -/
theorem handleTyped_eq (run runB : RunFn) (s : WS) (t : String) :
    handleTyped run s t = handleTyped runB s t := by
  rcases handleTyped_cases t with ⟨c, _, hf⟩ | ⟨_, hf⟩ | ⟨_, hf⟩ <;>
    rw [hf run s, hf runB s]
  exact emit_eq run runB s c

/-- The invocation trace of the type switch of `handleMessage` is
`channelLog` over `preChannels`. -/
theorem handleTyped_handlerLog (run : RunFn) (s : WS) (t : String) :
    (handleTyped run s t).handlerLog
        = s.handlerLog ++ channelLog s.messageHandlers (preChannels t) := by
  rcases handleTyped_cases t with ⟨c, hpre, hf⟩ | ⟨hpre, hf⟩ | ⟨hpre, hf⟩ <;>
    rw [hf run s, hpre] <;>
    simp [channelLog, emit_handlerLog, send_frame]

/-- Dispatch of a heartbeat reduces to a pong send followed by the two
fan-out passes. -/
theorem handleMessage_ping (run : RunFn) (s : WS) :
    handleMessage run s pingMsg
      = emit run (emit run (send s OutMsg.pongMsg).1 "message") "ping" := rfl

/-- Characterization of the rolling-buffer fold: starting at or below
capacity, the result is the suffix of the concatenated stream that fits. -/
theorem shiftPush_foldl_drop {α : Type} (cap : Nat) (hcap : 0 < cap) :
    ∀ (vs buf : List α), buf.length ≤ cap →
      appendSamples cap buf vs = (buf ++ vs).drop (buf.length + vs.length - cap) := by
  intro vs
  induction vs with
  | nil =>
      intro buf hb
      have h0 : buf.length - cap = 0 := by omega
      simp [appendSamples, h0]
  | cons v vs ih =>
      intro buf hb
      rw [show appendSamples cap buf (v :: vs)
            = appendSamples cap (shiftPush cap buf v) vs from rfl]
      by_cases hfull : cap ≤ buf.length
      · have hlen : buf.length = cap := le_antisymm hb hfull
        cases buf with
        | nil => simp at hlen; omega
        | cons a l =>
            have hl : l.length + 1 = cap := by simpa using hlen
            have hstep : shiftPush cap (a :: l) v = l ++ [v] := by
              unfold shiftPush
              rw [if_pos hfull]
              rfl
            have h1 : (l ++ [v]).length ≤ cap := by simp; omega
            rw [hstep, ih (l ++ [v]) h1]
            have hidx1 : (l ++ [v]).length + vs.length - cap = vs.length := by
              simp; omega
            have hidx2 : (a :: l).length + (v :: vs).length - cap = vs.length + 1 := by
              simp; omega
            rw [hidx1, hidx2]
            simp [List.append_assoc]
      · have hlt : buf.length < cap := lt_of_not_ge hfull
        have hstep : shiftPush cap buf v = buf ++ [v] := by
          unfold shiftPush
          rw [if_neg hfull]
        have h1 : (buf ++ [v]).length ≤ cap := by simp; omega
        rw [hstep, ih (buf ++ [v]) h1]
        have hidx : (buf ++ [v]).length + vs.length - cap
            = buf.length + (v :: vs).length - cap := by simp; omega
        rw [hidx]
        simp [List.append_assoc]

/-!
Claim theorems.
-/

/-- Claim C1, counterexample. The claim says dispatching a `ping` never
invokes wildcard `message` listeners or listeners registered on type `ping`.
On a connected client whose wildcard listener is 7 and whose `ping` listener
is 9, dispatching a heartbeat invokes both (and does send exactly one pong):
the claim is false. -/
theorem ping_dispatch_invokes_listeners :
    (handleMessage pureRun C1state pingMsg).handlerLog = [("message", 7), ("ping", 9)]
    ∧ (handleMessage pureRun C1state pingMsg).wireSent = [OutMsg.pongMsg]
    ∧ decide ((handleMessage pureRun C1state pingMsg).handlerLog = []) = false :=
  ⟨rfl, rfl, rfl⟩

/-- Claim C1, amended. Dispatching a heartbeat while connected appends
exactly one `pong` frame to the wire, and additionally invokes every wildcard
`message` listener followed by every `ping` listener. -/
theorem ping_dispatch_pong_and_fanout (s : WS) (run : RunFn)
    (hc : (s.isConnected && s.ws.isSome) = true) :
    (handleMessage run s pingMsg).wireSent = s.wireSent ++ [OutMsg.pongMsg]
    ∧ (handleMessage run s pingMsg).handlerLog
        = s.handlerLog
          ++ (handlersFor s.messageHandlers "message").map (fun i => ("message", i))
          ++ (handlersFor s.messageHandlers "ping").map (fun i => ("ping", i)) := by
  rw [handleMessage_ping, send_connected s _ hc]
  constructor
  · rfl
  · rw [emit_handlerLog]
    rw [emit_handlerLog]
    rfl

/-- Claim C1, witness for the amended theorem at the concrete connected
client `C1state`. -/
theorem ping_dispatch_pong_and_fanout_witness :
    ((C1state.isConnected && C1state.ws.isSome) = true)
    ∧ ((handleMessage pureRun C1state pingMsg).wireSent
          = C1state.wireSent ++ [OutMsg.pongMsg]
       ∧ (handleMessage pureRun C1state pingMsg).handlerLog
          = C1state.handlerLog
            ++ (handlersFor C1state.messageHandlers "message").map (fun i => ("message", i))
            ++ (handlersFor C1state.messageHandlers "ping").map (fun i => ("ping", i))) :=
  ⟨rfl, ping_dispatch_pong_and_fanout C1state pureRun rfl⟩

/-- Claim C2, counterexample. The claim says `subscribe(topic)` adds the
topic to the set regardless of connection state. On the fresh disconnected
client, `subscribe` fails the send, returns `false` and records nothing: the
claim is false. -/
theorem subscribe_disconnected_drops_topic :
    subscribe initWS "machine-1" = (initWS, false)
    ∧ (subscribe initWS "machine-1").1.subscriptions = []
    ∧ decide ("machine-1" ∈ (subscribe initWS "machine-1").1.subscriptions) = false :=
  ⟨rfl, rfl, rfl⟩

/-- Claim C2, amended. Only when connected does `subscribe` record the topic
(and send one subscribe frame); and the topics re-asserted by `resubscribe`
on a connected client are exactly the registry's current set, sent one frame
per topic with the set left unchanged. -/
theorem subscribe_resubscribe_connected (s : WS)
    (hc : (s.isConnected && s.ws.isSome) = true) :
    (resubscribe s).subscriptions = s.subscriptions
    ∧ (resubscribe s).wireSent = s.wireSent ++ s.subscriptions.map OutMsg.subscribeMsg
    ∧ ∀ machineId, subscribe s machineId
        = ({ s with
              wireSent := s.wireSent ++ [OutMsg.subscribeMsg machineId]
              subscriptions := setAdd s.subscriptions machineId }, true) := by
  have h := foldl_subscribe_resubscribes s.subscriptions s hc (fun m hm => hm)
  exact ⟨h.1, h.2, fun machineId => subscribe_connected s machineId hc⟩

/-- Claim C2, witness for the amended theorem on a connected client holding
two subscriptions. -/
theorem subscribe_resubscribe_connected_witness :
    ((sTwo.isConnected && sTwo.ws.isSome) = true)
    ∧ ((resubscribe sTwo).subscriptions = sTwo.subscriptions
       ∧ (resubscribe sTwo).wireSent
          = sTwo.wireSent ++ sTwo.subscriptions.map OutMsg.subscribeMsg
       ∧ ∀ machineId, subscribe sTwo machineId
          = ({ sTwo with
                wireSent := sTwo.wireSent ++ [OutMsg.subscribeMsg machineId]
                subscriptions := setAdd sTwo.subscriptions machineId }, true)) :=
  ⟨rfl, subscribe_resubscribe_connected sTwo rfl⟩

/-- Claim C3, counterexample. The claim says a successful open resets the
current reconnect delay to its initial 5000ms. After one unexpected close,
one fired retry and a successful open, the attempt counter is 0 but the
delay is 7500, not 5000: the claim is false. -/
theorem reconnect_delay_not_reset_on_open :
    afterReopen.isConnected = true
    ∧ afterReopen.reconnectAttempts = 0
    ∧ afterReopen.reconnectInterval = 7500
    ∧ decide (afterReopen.reconnectInterval = 5000) = false := by
  refine ⟨rfl, rfl, ?_, ?_⟩ <;> with_unfolding_all rfl

/-- Claim C3, amended. Every successful open resets the attempt counter to 0
but leaves the current reconnect delay exactly as it was: `onOpen` never
touches `reconnectInterval`. -/
theorem onOpen_resets_attempts_only (run : RunFn) (s : WS) :
    (onOpen run s).reconnectAttempts = 0
    ∧ (onOpen run s).reconnectInterval = s.reconnectInterval := by
  have h := foldl_subscribe_reconnect_fields
      (({ s with
            isConnected := true
            reconnectAttempts := 0
            status := ConnStatus.connected } : WS).subscriptions)
      { s with
          isConnected := true
          reconnectAttempts := 0
          status := ConnStatus.connected }
  exact ⟨h.1, h.2⟩

/-- Claim C4, counterexample. The claim says `disconnect()` cancels a
pending reconnect timer so that no reconnection attempt occurs before a
manual `connect()`. After an unexpected close the timer is pending; calling
`disconnect()` leaves it pending, and when it elapses a fresh connection
attempt (socket 1) is made with no manual call: the claim is false. -/
theorem disconnect_leaves_pending_timer :
    afterDisc.pendingReconnects = 1
    ∧ (fireReconnect afterDisc).status = ConnStatus.connecting
    ∧ (fireReconnect afterDisc).liveSockets = [1]
    ∧ (fireReconnect afterDisc).ws = some 1
    ∧ decide (afterDisc.pendingReconnects = 0) = false :=
  ⟨rfl, rfl, rfl, rfl, rfl⟩

/-- Claim C4, amended. `disconnect()` never cancels pending reconnect
timers: the pending count survives it, and any timer pending at the time of
`disconnect()` still fires and starts a new connection attempt. (Deliberate
close only suppresses the unexpected-close path, because the close event it
produces carries code 1000.) -/
theorem disconnect_timer_still_fires (s : WS) (hp : 0 < s.pendingReconnects) :
    (disconnect s).pendingReconnects = s.pendingReconnects
    ∧ (fireReconnect (disconnect s)).status = ConnStatus.connecting
    ∧ (fireReconnect (disconnect s)).liveSockets
        = (disconnect s).liveSockets ++ [(disconnect s).nextSocketId] := by
  have hdp := (disconnect_frame s).1
  have hp2 : 0 < (disconnect s).pendingReconnects := by rw [hdp]; exact hp
  have hf := fireReconnect_pos (disconnect s) hp2
  refine ⟨hdp, ?_, ?_⟩ <;> rw [hf] <;> rfl

/-- Claim C4, witness for the amended theorem in the state with one pending
reconnect timer. -/
theorem disconnect_timer_still_fires_witness :
    0 < afterClose1.pendingReconnects
    ∧ ((disconnect afterClose1).pendingReconnects = afterClose1.pendingReconnects
       ∧ (fireReconnect (disconnect afterClose1)).status = ConnStatus.connecting
       ∧ (fireReconnect (disconnect afterClose1)).liveSockets
          = (disconnect afterClose1).liveSockets
            ++ [(disconnect afterClose1).nextSocketId]) :=
  ⟨by decide, disconnect_timer_still_fires afterClose1 (by decide)⟩

/-- Claim C5, counterexample. The claim says `connect()` is a no-op when
already Connected. On the connected client, calling `connect()` flips the
indicator back to `connecting` and opens a second socket, so two physical
connection attempts are live at once: the claim is false. -/
theorem connect_not_noop_when_connected :
    sConn.status = ConnStatus.connected
    ∧ sConn.isConnected = true
    ∧ (connect sConn).status = ConnStatus.connecting
    ∧ (connect sConn).liveSockets = [0, 1]
    ∧ decide ((connect sConn).liveSockets.length ≤ 1) = false :=
  ⟨rfl, rfl, rfl, rfl, rfl⟩

/-- Claim C5, amended. `connect()` is never a no-op: whatever the current
state, it switches the indicator to `connecting` and points the manager at a
freshly created socket, adding one more live socket (the previous one is
abandoned without being closed), so several connection attempts can be in
flight. -/
theorem connect_always_opens_new_socket (s : WS) :
    (connect s).liveSockets = s.liveSockets ++ [s.nextSocketId]
    ∧ (connect s).liveSockets.length = s.liveSockets.length + 1
    ∧ (connect s).status = ConnStatus.connecting
    ∧ (connect s).ws = some s.nextSocketId
    ∧ (connect s).isConnected = s.isConnected := by
  refine ⟨rfl, ?_, rfl, rfl, rfl⟩
  simp [connect]

/-- Claim C6, counterexample. The claim says `unsubscribe(topic)` still
removes the topic when disconnected. On the disconnected client that holds
`m1`, `unsubscribe` fails the send, returns `false` and keeps `m1`
registered: the claim is false. -/
theorem unsubscribe_disconnected_keeps_topic :
    (unsubscribe sSubDisc "m1").2 = false
    ∧ (unsubscribe sSubDisc "m1").1.subscriptions = ["m1"]
    ∧ decide ("m1" ∈ (unsubscribe sSubDisc "m1").1.subscriptions) = true :=
  ⟨rfl, rfl, rfl⟩

/-- Claim C6, amended. `unsubscribe(machineId)` removes the topic from the
set and sends one unsubscribe frame exactly when connected; when not
connected the send fails and nothing changes. -/
theorem unsubscribe_connected_removes_and_sends (s : WS) (machineId : String)
    (hc : (s.isConnected && s.ws.isSome) = true) :
    unsubscribe s machineId
      = ({ s with
            wireSent := s.wireSent ++ [OutMsg.unsubscribeMsg machineId]
            subscriptions := s.subscriptions.erase machineId }, true) := by
  simp [unsubscribe, send_connected s _ hc]

/-- Claim C6, witness for the amended theorem on the connected client
holding `m1`. -/
theorem unsubscribe_connected_removes_and_sends_witness :
    ((sSub.isConnected && sSub.ws.isSome) = true)
    ∧ unsubscribe sSub "m1"
        = ({ sSub with
              wireSent := sSub.wireSent ++ [OutMsg.unsubscribeMsg "m1"]
              subscriptions := sSub.subscriptions.erase "m1" }, true) :=
  ⟨rfl, unsubscribe_connected_removes_and_sends sSub "m1" rfl⟩

/-- Claim C7. With the default configuration (initial delay 5000ms, growth
1.5, cap 30000ms, maxAttempts 5), five consecutive unexpected closes schedule
retries after exactly 5000, 7500, 11250, 16875 and 25312.5 milliseconds, and
the sixth unexpected close schedules no retry (no new timer, no new delay)
and instead emits `max_reconnect_attempts_reached`. -/
theorem reconnect_delay_sequence_and_gave_up :
    afterClose5.scheduledDelays = [5000, 7500, 11250, 16875, 25312.5]
    ∧ afterClose5.reconnectAttempts = 5
    ∧ afterClose5.emittedEvents.count "max_reconnect_attempts_reached" = 0
    ∧ afterClose6.scheduledDelays = [5000, 7500, 11250, 16875, 25312.5]
    ∧ afterClose6.pendingReconnects = 0
    ∧ afterClose6.emittedEvents.count "max_reconnect_attempts_reached" = 1 := by
  refine ⟨?_, ?_, ?_, ?_, ?_, ?_⟩ <;> with_unfolding_all rfl

/-- Claim C8. Appending 60 samples to one series buffer of capacity 50
(the `maxDataPoints` of `ChartManager`) leaves exactly 50 samples, equal to
input samples 11 through 60 in arrival order, and no prefix of the append
sequence ever leaves the buffer above its capacity. -/
theorem series_capacity_fifo {α : Type} (vs : List α) (h : vs.length = 60) :
    appendSamples 50 [] vs = vs.drop 10
    ∧ (appendSamples 50 [] vs).length = 50
    ∧ ∀ n, (appendSamples 50 [] (vs.take n)).length ≤ 50 := by
  have hmain := shiftPush_foldl_drop 50 (by omega) vs ([] : List α) (by simp)
  have h1 : appendSamples 50 [] vs = vs.drop 10 := by
    rw [hmain]; simp [h]
  refine ⟨h1, ?_, ?_⟩
  · rw [h1]; simp [h]
  · intro n
    have ht := shiftPush_foldl_drop 50 (by omega) (vs.take n) ([] : List α) (by simp)
    rw [ht]
    simp [List.length_take, h]
    omega

/-- Claim C8, witness at the concrete input `List.range 60`. -/
theorem series_capacity_fifo_witness :
    (List.range 60).length = 60
    ∧ (appendSamples 50 [] (List.range 60) = (List.range 60).drop 10
       ∧ (appendSamples 50 [] (List.range 60)).length = 50
       ∧ ∀ n, (appendSamples 50 [] ((List.range 60).take n)).length ≤ 50) :=
  ⟨by simp, series_capacity_fifo (List.range 60) (by simp)⟩

/-- Claim C9. An inbound frame on which the parser fails (malformed JSON)
leaves `onMessage` without an exception and with the state — in particular
the `isConnected` flag — unchanged: the frame is only logged and dropped. -/
theorem malformed_frame_dropped (parse : String → Except String Msg)
    (run : RunFn) (s : WS) (raw e : String)
    (hp : parse raw = Except.error e) :
    onMessage parse run s raw = s
    ∧ (onMessage parse run s raw).isConnected = s.isConnected := by
  have h : onMessage parse run s raw = s := by
    simp [onMessage, onMessageBody, hp]
  exact ⟨h, by rw [h]⟩

/-- Claim C9, witness with the always-failing parser on a malformed frame. -/
theorem malformed_frame_dropped_witness :
    parseFail "not valid json" = Except.error "SyntaxError"
    ∧ (onMessage parseFail pureRun initWS "not valid json" = initWS
       ∧ (onMessage parseFail pureRun initWS "not valid json").isConnected
          = initWS.isConnected) :=
  ⟨rfl, malformed_frame_dropped parseFail pureRun initWS "not valid json" "SyntaxError" rfl⟩

/-- Claim C10, counterexample. The claim says wildcard listeners run before
type listeners and each registered listener runs exactly once per dispatch.
Dispatching a `welcome` message to a client with wildcard listener 1 and
`welcome` listener 3 invokes listener 3 twice — once from the type handler,
before the wildcard pass, and once after it: the claim is false. -/
theorem typed_listener_invoked_twice :
    (handleMessage pureRun C10state (Msg.mk "welcome")).handlerLog
      = [("welcome", 3), ("message", 1), ("welcome", 3)]
    ∧ (handleMessage pureRun C10state (Msg.mk "welcome")).handlerLog.count ("welcome", 3) = 2
    ∧ decide ((handleMessage pureRun C10state (Msg.mk "welcome")).handlerLog.count
        ("welcome", 3) = 1) = false :=
  ⟨rfl, rfl, rfl⟩

/-- Claim C10, amended. Per dispatch the invocation trace is exactly the
registry applied, in registration order, to the channel sequence
`dispatchChannels`: the ten specially-handled types emit on their own channel
once before the wildcard pass and once after it (so their type listeners run
twice), `error` emits on `server_error` before the wildcard pass, and for
`ping` and unknown types the wildcard pass comes first with type listeners
invoked exactly once; moreover the whole dispatch is independent of which
listeners throw. -/
theorem dispatch_fanout_characterization (s : WS) (m : Msg) (run runB : RunFn) :
    (handleMessage run s m).handlerLog
      = s.handlerLog ++ channelLog s.messageHandlers (dispatchChannels m.type)
    ∧ handleMessage run s m = handleMessage runB s m := by
  constructor
  · show (emit run (emit run (handleTyped run s m.type) "message") m.type).handlerLog
      = s.handlerLog ++ channelLog s.messageHandlers (dispatchChannels m.type)
    simp only [emit_handlerLog, emit_messageHandlers]
    rw [handleTyped_handlerLog, handleTyped_messageHandlers]
    simp [dispatchChannels, channelLog_append, channelLog, List.append_assoc]
  · show emit run (emit run (handleTyped run s m.type) "message") m.type
      = emit runB (emit runB (handleTyped runB s m.type) "message") m.type
    rw [← handleTyped_eq run runB]
    rw [emit_eq run runB (emit run (handleTyped run s m.type) "message") m.type,
      emit_eq run runB (handleTyped run s m.type) "message"]

end MonitorClient
